import Mathlib

/-!
Verification of the mood-tagger worker (src/mood-tagger/main.py).

Shallow embedding conventions:
* Python `set` accumulation is modelled as a duplicate-free list in insertion
  order (`insertNew` appends an element only when absent), so `tags.update(xs)`
  becomes a left fold of `insertNew` and `list(tags)[:6]` becomes `List.take 6`.
* External collaborators (base64 decoding, PIL image opening and conversion,
  the SmolVLM captioner, the process identity and clock) are oracle fields of
  an `Env` record; the control flow of the repository code is what is embedded.
* Python exceptions are values of `Exc` carrying the message `str(e)`;
  a `try` block is an `Except Exc` computation.
-/

set_option autoImplicit false

namespace MoodTagger

/-- A Python exception, reduced to its message `str(e)`. -/
structure Exc where
  msg : String
deriving Repr, DecidableEq

/-- A decoded JSON value, the possible outputs of Python json.loads. -/
inductive Json where
  | null
  | bool (b : Bool)
  | num (n : Int)
  | str (s : String)
  | arr (items : List Json)
  | obj (fields : List (String × Json))

/-- Lower-casing, the embedding of Python str.lower on the ASCII captions
    and keywords involved. -/
def lowerStr (s : String) : String :=
  String.mk (s.data.map Char.toLower)

/-- Boolean test that list `p` occurs at the start of `l`. -/
def startsWith : List Char → List Char → Bool
  | [], _ => true
  | _ :: _, [] => false
  | a :: as, b :: bs => a == b && startsWith as bs

/-- Boolean substring containment on character lists. -/
def containsSub (needle : List Char) : List Char → Bool
  | [] => needle.isEmpty
  | b :: tl => startsWith needle (b :: tl) || containsSub needle tl

/-- Embedding of the Python substring test `needle in hay`. -/
def strContains (needle hay : String) : Bool :=
  containsSub needle.data hay.data

/-- The mood lexicon `mood_mappings` of extract_mood_tags, in source order
    (Python dict iteration order is insertion order). -/
def mood_mappings : List (String × List String) :=
  [("sunny", ["bright", "cheerful", "warm"]),
   ("bright", ["happy", "vibrant", "energetic"]),
   ("dark", ["moody", "mysterious", "dramatic"]),
   ("colorful", ["joyful", "lively", "playful"]),
   ("peaceful", ["calm", "serene", "tranquil"]),
   ("beautiful", ["elegant", "lovely", "aesthetic"]),
   ("green", ["natural", "fresh", "organic"]),
   ("blue", ["cool", "calm", "peaceful"]),
   ("red", ["passionate", "bold", "energetic"]),
   ("yellow", ["cheerful", "sunny", "bright"]),
   ("orange", ["warm", "vibrant", "enthusiastic"]),
   ("purple", ["mystical", "luxurious", "dreamy"]),
   ("black", ["moody", "minimalist", "bold"]),
   ("white", ["clean", "peaceful", "pure"]),
   ("water", ["refreshing", "fluid", "clean"]),
   ("flower", ["delicate", "beautiful", "natural"]),
   ("sunset", ["romantic", "warm", "golden"]),
   ("sunrise", ["hopeful", "gentle", "fresh"]),
   ("rain", ["melancholic", "calm", "moody"]),
   ("snow", ["quiet", "cold", "magical"]),
   ("storm", ["chaotic", "powerful", "intense"]),
   ("city", ["urban", "dynamic", "modern"]),
   ("mountain", ["majestic", "strong", "elevated"]),
   ("beach", ["relaxing", "tropical", "carefree"]),
   ("forest", ["natural", "mysterious", "earthy"]),
   ("desert", ["vast", "dry", "isolated"]),
   ("sky", ["open", "free", "airy"]),
   ("smile", ["happy", "joyful", "positive"]),
   ("laugh", ["cheerful", "carefree", "uplifting"]),
   ("cry", ["emotional", "sad", "touching"]),
   ("child", ["innocent", "joyful", "pure"]),
   ("baby", ["cute", "gentle", "tender"]),
   ("dog", ["friendly", "loyal", "playful"]),
   ("cat", ["elegant", "mysterious", "independent"]),
   ("bird", ["free", "graceful", "light"]),
   ("food", ["appetizing", "delicious", "satisfying"]),
   ("drink", ["refreshing", "inviting", "cool"]),
   ("old", ["vintage", "nostalgic", "classic"]),
   ("new", ["modern", "fresh", "contemporary"]),
   ("vintage", ["nostalgic", "retro", "classic"]),
   ("abstract", ["artistic", "imaginative", "creative"]),
   ("minimal", ["clean", "simple", "focused"]),
   ("crowd", ["busy", "chaotic", "lively"]),
   ("alone", ["solitary", "quiet", "introspective"]),
   ("dance", ["energetic", "expressive", "joyful"]),
   ("music", ["rhythmic", "soulful", "emotional"]),
   ("light", ["hopeful", "bright", "glowing"]),
   ("shadow", ["dark", "mysterious", "introspective"]),
   ("fire", ["intense", "hot", "powerful"]),
   ("night", ["quiet", "romantic", "mysterious"])]

/-- Set insertion on the duplicate-free-list model of a Python set:
    append the element only when it is absent. -/
def insertNew (l : List String) (x : String) : List String :=
  if x ∈ l then l else l ++ [x]

/-- Embedding of Python `tags.update(xs)` on the set model. -/
def updateTags (l : List String) (xs : List String) : List String :=
  xs.foldl insertNew l

/-- One step of the keyword-matching loop of extract_mood_tags: when the
    keyword occurs in the lowered caption, add the first two associated
    moods to the accumulating set. -/
def keywordStep (cl : String) (acc : List String) (p : String × List String) :
    List String :=
  if strContains p.1 cl then updateTags acc (p.2.take 2) else acc

/-- The accumulated tag set after the keyword loop of extract_mood_tags,
    given the lowered caption. -/
def keywordFold (cl : String) : List String :=
  mood_mappings.foldl (keywordStep cl) []

/-- Test for the first fallback tier of extract_mood_tags:
    `any(word in caption_lower for word in [beautiful, nice, good, lovely])`. -/
def positiveHit (cl : String) : Bool :=
  (["beautiful", "nice", "good", "lovely"]).any (fun w => strContains w cl)

/-- Test for the second fallback tier of extract_mood_tags:
    `any(word in caption_lower for word in [sitting, standing, lying])`. -/
def postureHit (cl : String) : Bool :=
  (["sitting", "standing", "lying"]).any (fun w => strContains w cl)

/-- The `if not tags` fallback block of extract_mood_tags. -/
def fallbackTags (cl : String) (tags : List String) : List String :=
  if tags.isEmpty then
    if positiveHit cl then updateTags tags ["pleasant", "positive"]
    else if postureHit cl then updateTags tags ["calm", "relaxed"]
    else updateTags tags ["neutral", "balanced"]
  else tags

/-- Embedding of extract_mood_tags (main.py lines 50-122): lower the caption,
    accumulate the first two moods of every matching lexicon keyword, apply
    the three-tier fallback when nothing matched, return at most 6 tags. -/
def extract_mood_tags (caption : String) : List String :=
  let cl := lowerStr caption
  (fallbackTags cl (keywordFold cl)).take 6

/-- Look up a key in the field list of a JSON object. -/
def lookupField (kvs : List (String × Json)) (k : String) : Option Json :=
  match kvs with
  | [] => none
  | (k2, v) :: tl => if k2 = k then some v else lookupField tl k

/-- Embedding of the Python subscript `job_data[k]` on a decoded JSON value:
    a KeyError on an object without the key, a TypeError on any non-object. -/
def getItem (j : Json) (k : String) : Except Exc Json :=
  match j with
  | .obj kvs =>
    match lookupField kvs k with
    | some v => .ok v
    | none => .error ⟨"KeyError: " ++ k⟩
  | _ => .error ⟨"TypeError: value is not subscriptable by string key " ++ k⟩

/-- An opaque decoded PIL image; the code inspects only its mode. -/
structure PImage where
  mode : String
  content : Nat
deriving Repr, DecidableEq

/-- Oracles for the external collaborators used by process_image, plus the
    process identity WORKER_ID and the clock datetime.now().isoformat(). -/
structure Env where
  b64decode : String → Except Exc (List Nat)
  imageOpen : List Nat → Except Exc PImage
  convertRGB : PImage → PImage
  generate : PImage → Except Exc String
  workerId : String
  now : String

/-- The published result record. On success the tags and caption sit under
    the data field of the Python dict and error is absent; on failure error
    is present and data absent. -/
structure ResultRec where
  requestId : Json
  success : Bool
  tags : List String
  caption : Option String
  error : Option String
  worker : String
  processedAt : String

/-- Outcome of calling a Python function: a returned value or an exception
    propagated to the caller. -/
inductive POutcome where
  | ret (r : ResultRec)
  | raised (e : Exc)

/-- Embedding of handing image_data to base64.b64decode: a non-string value
    makes the decoder raise TypeError. -/
def asB64Input (image_data : Json) : Except Exc String :=
  match image_data with
  | .str s => .ok s
  | _ => .error ⟨"TypeError: argument should be a bytes-like object or ASCII string"⟩

/-- The try block of process_image (main.py lines 128-194), with the early
    exception exit of each statement made explicit: extract the job fields,
    base64-decode and open the image, normalize to RGB, caption it, derive
    tags (with the defensive default), assemble the success result. -/
def processTry (env : Env) (job_data : Json) : Except Exc ResultRec :=
  match getItem job_data "requestId" with
  | .error e => .error e
  | .ok request_id =>
    match getItem job_data "fileName" with
    | .error e => .error e
    | .ok _file_name =>
      match getItem job_data "imageData" with
      | .error e => .error e
      | .ok image_data =>
        match asB64Input image_data with
        | .error e => .error e
        | .ok image_str =>
          match env.b64decode image_str with
          | .error e => .error e
          | .ok image_bytes =>
            match env.imageOpen image_bytes with
            | .error e => .error e
            | .ok pil0 =>
              let pil_image := if pil0.mode ≠ "RGB" then env.convertRGB pil0 else pil0
              match env.generate pil_image with
              | .error e => .error e
              | .ok caption =>
                let tags := extract_mood_tags caption
                let tags :=
                  if tags.isEmpty then ["artistic", "visual", "expressive"] else tags
                .ok { requestId := request_id, success := true, tags := tags,
                      caption := some caption, error := none,
                      worker := env.workerId, processedAt := env.now }

/-- Embedding of process_image (main.py lines 126-204): run the try block; on
    an exception build the failure result through job_data.get, which itself
    raises AttributeError when job_data is not a dict. -/
def process_image (env : Env) (job_data : Json) : POutcome :=
  match processTry env job_data with
  | .ok r => .ret r
  | .error e =>
    match job_data with
    | .obj kvs =>
      .ret { requestId := (lookupField kvs "requestId").getD (.str "unknown"),
             success := false, tags := [], caption := none,
             error := some e.msg, worker := env.workerId, processedAt := env.now }
    | _ => .raised ⟨"AttributeError: get"⟩

/-- What one blocking pop of the worker loop can yield: cancellation of the
    task, a queue error, a timeout with no job, or a popped payload given by
    the outcome of json.loads on it. -/
inductive IterInput where
  | cancelled
  | popErr (e : Exc)
  | timeout
  | popped (parsed : Except Exc Json)

/-- Observable effect of one iteration of the worker loop: the results
    published on the result channel, the backoff slept before the next
    iteration, and whether the loop exits. -/
structure IterResult where
  published : List ResultRec
  backoff : Nat
  exits : Bool

/-- Embedding of one iteration of queue_worker (main.py lines 212-241). The
    inner try parses the payload, logs the received job through the subscript
    job[requestId] (which can raise), processes it and publishes exactly one
    result; JSONDecodeError and any other inner exception are caught and only
    logged. The outer handlers turn cancellation into a clean exit of the
    loop and any other error into a 5 second backoff before continuing. -/
def queue_worker_iter (env : Env) (input : IterInput) : IterResult :=
  match input with
  | .cancelled => ⟨[], 0, true⟩
  | .popErr _ => ⟨[], 5, false⟩
  | .timeout => ⟨[], 0, false⟩
  | .popped (.error _) => ⟨[], 0, false⟩
  | .popped (.ok job) =>
    match getItem job "requestId" with
    | .error _ => ⟨[], 0, false⟩
    | .ok _ =>
      match process_image env job with
      | .ret r => ⟨[r], 0, false⟩
      | .raised _ => ⟨[], 0, false⟩

/-- Outcome of startup_event: which globals were initialized and whether the
    worker task was created. -/
structure StartupResult where
  modelLoaded : Bool
  redisConnected : Bool
  workerStarted : Bool
deriving Repr, DecidableEq

/-- Embedding of startup_event (main.py lines 243-265): load the model and
    return early when it fails; connect and ping redis and return early when
    the ping raises; only then create the worker task. -/
def startup_event (loadModelOk : Bool) (ping : Except Exc Unit) : StartupResult :=
  if loadModelOk = false then ⟨false, false, false⟩
  else
    match ping with
    | .error _ => ⟨true, false, false⟩
    | .ok _ => ⟨true, true, true⟩

/-- The oracle collaborators raise only exceptions carrying a non-empty
    message, which is true of the real base64, PIL and transformers
    libraries. -/
def EnvNonemptyMsgs (env : Env) : Prop :=
  (∀ s e, env.b64decode s = .error e → e.msg ≠ "") ∧
  (∀ b e, env.imageOpen b = .error e → e.msg ≠ "") ∧
  (∀ im e, env.generate im = .error e → e.msg ≠ "")

/-- A concrete oracle environment whose collaborators all succeed. -/
def envOK : Env :=
  { b64decode := fun _ => .ok [137, 80, 78, 71]
  , imageOpen := fun _ => .ok ⟨"RGB", 0⟩
  , convertRGB := fun im => { im with mode := "RGB" }
  , generate := fun _ => .ok "A sunny beach"
  , workerId := "mood-worker-1"
  , now := "2026-10-12T00:00:00" }

/-! ### Helper lemmas about the set model of tag accumulation -/

theorem mem_insertNew {l : List String} {x y : String} :
    y ∈ insertNew l x ↔ y ∈ l ∨ y = x := by
  unfold insertNew
  split
  · next hx =>
    constructor
    · exact fun h => Or.inl h
    · rintro (h | rfl)
      · exact h
      · exact hx
  · simp

theorem insertNew_nodup {l : List String} (x : String) (h : l.Nodup) :
    (insertNew l x).Nodup := by
  unfold insertNew
  split
  · exact h
  · next hx =>
    refine h.append (List.nodup_singleton x) ?_
    intro a ha hax
    rw [List.mem_singleton] at hax
    exact hx (hax ▸ ha)

theorem length_le_insertNew (l : List String) (x : String) :
    l.length ≤ (insertNew l x).length := by
  unfold insertNew
  split
  · exact Nat.le_refl _
  · simp

theorem mem_updateTags {xs : List String} {l : List String} {y : String} :
    y ∈ updateTags l xs ↔ y ∈ l ∨ y ∈ xs := by
  induction xs generalizing l with
  | nil => simp [updateTags]
  | cons a as ih =>
    show y ∈ updateTags (insertNew l a) as ↔ _
    rw [ih, mem_insertNew]
    simp only [List.mem_cons]
    tauto

theorem updateTags_nodup (xs : List String) {l : List String} (h : l.Nodup) :
    (updateTags l xs).Nodup := by
  induction xs generalizing l with
  | nil => exact h
  | cons a as ih => exact ih (insertNew_nodup a h)

theorem length_le_updateTags (xs : List String) (l : List String) :
    l.length ≤ (updateTags l xs).length := by
  induction xs generalizing l with
  | nil => exact Nat.le_refl _
  | cons a as ih =>
    exact Nat.le_trans (length_le_insertNew l a) (ih (insertNew l a))

/-! ### Helper lemmas about the keyword-matching fold -/

theorem mem_foldl_keywordStep_of_mem (cl : String)
    (pairs : List (String × List String)) {acc : List String} {y : String}
    (h : y ∈ acc) : y ∈ pairs.foldl (keywordStep cl) acc := by
  induction pairs generalizing acc with
  | nil => exact h
  | cons p ps ih =>
    refine ih ?_
    unfold keywordStep
    split
    · exact mem_updateTags.mpr (Or.inl h)
    · exact h

theorem mem_foldl_keywordStep_of_match (cl : String)
    (pairs : List (String × List String)) (acc : List String)
    {k : String} {ms : List String} {y : String}
    (hp : (k, ms) ∈ pairs) (hc : strContains k cl = true) (hy : y ∈ ms.take 2) :
    y ∈ pairs.foldl (keywordStep cl) acc := by
  induction pairs generalizing acc with
  | nil => cases hp
  | cons p ps ih =>
    rcases List.mem_cons.mp hp with h | h
    · subst h
      refine mem_foldl_keywordStep_of_mem cl ps ?_
      show y ∈ if strContains k cl = true then updateTags acc (ms.take 2) else acc
      rw [hc, if_pos rfl]
      exact mem_updateTags.mpr (Or.inr hy)
    · exact ih _ h

theorem mem_foldl_keywordStep (cl : String)
    (pairs : List (String × List String)) (acc : List String) {y : String}
    (h : y ∈ pairs.foldl (keywordStep cl) acc) :
    y ∈ acc ∨ ∃ p ∈ pairs, y ∈ p.2.take 2 := by
  induction pairs generalizing acc with
  | nil => exact Or.inl h
  | cons p ps ih =>
    rcases ih (keywordStep cl acc p) h with h1 | h1
    · unfold keywordStep at h1
      split at h1
      · rcases mem_updateTags.mp h1 with h2 | h2
        · exact Or.inl h2
        · exact Or.inr ⟨p, List.mem_cons_self p ps, h2⟩
      · exact Or.inl h1
    · rcases h1 with ⟨q, hq, hyq⟩
      exact Or.inr ⟨q, List.mem_cons_of_mem p hq, hyq⟩

theorem foldl_keywordStep_nodup (cl : String)
    (pairs : List (String × List String)) {acc : List String} (h : acc.Nodup) :
    (pairs.foldl (keywordStep cl) acc).Nodup := by
  induction pairs generalizing acc with
  | nil => exact h
  | cons p ps ih =>
    refine ih ?_
    unfold keywordStep
    split
    · exact updateTags_nodup _ h
    · exact h

theorem length_le_foldl_keywordStep (cl : String)
    (pairs : List (String × List String)) (acc : List String) :
    acc.length ≤ (pairs.foldl (keywordStep cl) acc).length := by
  induction pairs generalizing acc with
  | nil => exact Nat.le_refl _
  | cons p ps ih =>
    refine Nat.le_trans ?_ (ih (keywordStep cl acc p))
    unfold keywordStep
    split
    · exact length_le_updateTags _ _
    · exact Nat.le_refl _

theorem foldl_keywordStep_no_match (cl : String)
    (pairs : List (String × List String)) (acc : List String)
    (h : ∀ p ∈ pairs, strContains p.1 cl = false) :
    pairs.foldl (keywordStep cl) acc = acc := by
  induction pairs generalizing acc with
  | nil => rfl
  | cons p ps ih =>
    have hp : strContains p.1 cl = false := h p (List.mem_cons_self p ps)
    have hstep : keywordStep cl acc p = acc := by
      unfold keywordStep
      rw [hp]
      simp
    rw [List.foldl_cons, hstep]
    exact ih _ (fun q hq => h q (List.mem_cons_of_mem p hq))

/-- Every lexicon entry carries at least two associated moods. -/
theorem mood_mappings_moods_len : ∀ p ∈ mood_mappings, 2 ≤ p.2.length := by decide

/-- No lexicon keyword contributes the mood word pleasant among its first
    two associated moods. -/
theorem pleasant_not_in_moods : ∀ p ∈ mood_mappings, "pleasant" ∉ p.2.take 2 := by decide

theorem keywordFold_nodup (cl : String) : (keywordFold cl).Nodup :=
  foldl_keywordStep_nodup cl mood_mappings List.nodup_nil

theorem keywordFold_no_match (cl : String)
    (h : ∀ p ∈ mood_mappings, strContains p.1 cl = false) :
    keywordFold cl = [] :=
  foldl_keywordStep_no_match cl mood_mappings [] h

theorem keywordFold_ne_nil_of_match {cl k : String} {ms : List String}
    (hp : (k, ms) ∈ mood_mappings) (hc : strContains k cl = true) :
    keywordFold cl ≠ [] := by
  have hlen : 2 ≤ ms.length := mood_mappings_moods_len (k, ms) hp
  rcases ms with _ | ⟨m0, tl⟩
  · simp at hlen
  · have hm : m0 ∈ (m0 :: tl).take 2 := by simp
    have hmem : m0 ∈ keywordFold cl :=
      mem_foldl_keywordStep_of_match cl mood_mappings [] hp hc hm
    exact List.ne_nil_of_mem hmem

theorem extract_of_keywordFold_ne_nil {c : String}
    (h : keywordFold (lowerStr c) ≠ []) :
    extract_mood_tags c = (keywordFold (lowerStr c)).take 6 := by
  show (fallbackTags (lowerStr c) (keywordFold (lowerStr c))).take 6 = _
  unfold fallbackTags
  have hne : ¬ ((keywordFold (lowerStr c)).isEmpty = true) := by
    simpa [List.isEmpty_iff] using h
  rw [if_neg hne]

theorem extract_of_keywordFold_nil {c : String}
    (h : keywordFold (lowerStr c) = []) :
    extract_mood_tags c =
      if positiveHit (lowerStr c) then ["pleasant", "positive"]
      else if postureHit (lowerStr c) then ["calm", "relaxed"]
      else ["neutral", "balanced"] := by
  show (fallbackTags (lowerStr c) (keywordFold (lowerStr c))).take 6 = _
  rw [h]
  show (if positiveHit (lowerStr c) then updateTags [] ["pleasant", "positive"]
        else if postureHit (lowerStr c) then updateTags [] ["calm", "relaxed"]
        else updateTags [] ["neutral", "balanced"]).take 6 = _
  split
  · rfl
  · split
    · rfl
    · rfl

/-! ### Claim theorems about the tag deriver -/

/-- C3: for every caption, extract_mood_tags returns between 1 and 6 tags
    with no duplicate elements; in particular the list is never empty, so the
    defensive default substitution of process_image (its `if not tags` branch,
    main.py lines 179-180) always keeps the derived tags and is unreachable. -/
theorem c3_extract_mood_tags_bounds (caption : String) :
    1 ≤ (extract_mood_tags caption).length ∧
    (extract_mood_tags caption).length ≤ 6 ∧
    (extract_mood_tags caption).Nodup ∧
    (if (extract_mood_tags caption).isEmpty then ["artistic", "visual", "expressive"]
     else extract_mood_tags caption) = extract_mood_tags caption := by
  by_cases h : keywordFold (lowerStr caption) = []
  · rw [extract_of_keywordFold_nil h]
    split
    · decide
    · split
      · decide
      · decide
  · rw [extract_of_keywordFold_ne_nil h]
    have hpos : 0 < (keywordFold (lowerStr caption)).length := List.length_pos.mpr h
    have hlen : ((keywordFold (lowerStr caption)).take 6).length
        = min 6 (keywordFold (lowerStr caption)).length := List.length_take 6 _
    have hne : (keywordFold (lowerStr caption)).take 6 ≠ [] := by
      intro hc
      rw [hc] at hlen
      simp only [List.length_nil] at hlen
      omega
    refine ⟨by omega, by omega, ?_, ?_⟩
    · exact List.Nodup.sublist (List.take_sublist 6 _) (keywordFold_nodup _)
    · rw [if_neg (by simpa [List.isEmpty_iff] using hne)]

/-- C3 witness at the caption sunny day. -/
theorem c3_extract_mood_tags_bounds_witness :
    1 ≤ (extract_mood_tags "sunny day").length ∧
    (extract_mood_tags "sunny day").length ≤ 6 ∧
    (extract_mood_tags "sunny day").Nodup ∧
    (if (extract_mood_tags "sunny day").isEmpty then ["artistic", "visual", "expressive"]
     else extract_mood_tags "sunny day") = extract_mood_tags "sunny day" :=
  c3_extract_mood_tags_bounds "sunny day"

/-- C4 counterexample: the caption sunny bright dark colorful contains the
    lexicon keyword colorful, yet neither of its first two associated moods
    (joyful, lively) appears in the returned tag list, because the
    accumulated set has 8 elements and is truncated to 6. -/
theorem c4_truncation_counterexample :
    ("colorful", ["joyful", "lively", "playful"]) ∈ mood_mappings ∧
    strContains "colorful" (lowerStr "sunny bright dark colorful") = true ∧
    ¬ ∃ m ∈ (["joyful", "lively", "playful"].take 2),
        m ∈ extract_mood_tags "sunny bright dark colorful" := by decide

/-- C4 (amended): if the lowered caption contains a lexicon keyword and the
    accumulated keyword tag set is not truncated (it has at most 6 tags),
    then the output of extract_mood_tags includes at least one of that
    keyword's first two associated mood words. -/
theorem c4_keyword_moods_included (c k : String) (ms : List String)
    (hmem : (k, ms) ∈ mood_mappings)
    (hsub : strContains k (lowerStr c) = true)
    (hlen : (keywordFold (lowerStr c)).length ≤ 6) :
    ∃ m ∈ ms.take 2, m ∈ extract_mood_tags c := by
  have hne : keywordFold (lowerStr c) ≠ [] := keywordFold_ne_nil_of_match hmem hsub
  rw [extract_of_keywordFold_ne_nil hne, List.take_of_length_le hlen]
  have h2 : 2 ≤ ms.length := mood_mappings_moods_len (k, ms) hmem
  rcases ms with _ | ⟨m0, tl⟩
  · simp at h2
  · exact ⟨m0, by simp,
      mem_foldl_keywordStep_of_match _ _ _ hmem hsub (by simp)⟩

/-- C4 witness at the caption sunny day and the keyword sunny. -/
theorem c4_keyword_moods_included_witness :
    ∃ m ∈ (["bright", "cheerful", "warm"].take 2),
      m ∈ extract_mood_tags "sunny day" :=
  c4_keyword_moods_included "sunny day" "sunny" ["bright", "cheerful", "warm"]
    (by decide) (by decide) (by decide)

/-- C6: for a caption in which no lexicon keyword occurs (an empty caption in
    particular), extract_mood_tags returns exactly the fallback pair selected
    by the three-tier rule, hence exactly one of the three fixed fallback sets
    and never a mix of fallback and lexicon-derived tags. -/
theorem c6_fallback_exact (c : String)
    (h : ∀ p ∈ mood_mappings, strContains p.1 (lowerStr c) = false) :
    extract_mood_tags c =
      (if positiveHit (lowerStr c) then ["pleasant", "positive"]
       else if postureHit (lowerStr c) then ["calm", "relaxed"]
       else ["neutral", "balanced"]) ∧
    (extract_mood_tags c = ["pleasant", "positive"] ∨
     extract_mood_tags c = ["calm", "relaxed"] ∨
     extract_mood_tags c = ["neutral", "balanced"]) := by
  have hnil := keywordFold_no_match (lowerStr c) h
  have he := extract_of_keywordFold_nil hnil
  refine ⟨he, ?_⟩
  rw [he]
  split
  · exact Or.inl rfl
  · split
    · exact Or.inr (Or.inl rfl)
    · exact Or.inr (Or.inr rfl)

/-- C6 witness at the empty caption. -/
theorem c6_fallback_exact_witness :
    extract_mood_tags "" =
      (if positiveHit (lowerStr "") then ["pleasant", "positive"]
       else if postureHit (lowerStr "") then ["calm", "relaxed"]
       else ["neutral", "balanced"]) ∧
    (extract_mood_tags "" = ["pleasant", "positive"] ∨
     extract_mood_tags "" = ["calm", "relaxed"] ∨
     extract_mood_tags "" = ["neutral", "balanced"]) :=
  c6_fallback_exact "" (by decide)

/-- C7 counterexample: for the caption A sunny beach with bright colors, the
    tag bright is produced (first associated mood of the keyword sunny) but
    is absent from the set of eight tags allowed by the claim, so the claimed
    subset property fails. -/
theorem c7_counterexample :
    "bright" ∈ extract_mood_tags "A sunny beach with bright colors" ∧
    "bright" ∉ ["cheerful", "warm", "happy", "vibrant", "energetic",
                "relaxing", "tropical", "carefree"] := by decide

/-- C7 (amended): for the caption A sunny beach with bright colors the tags
    are drawn from the claimed set enlarged with bright, with at most 6
    pairwise distinct elements. -/
theorem c7_sunny_beach_amended :
    ((extract_mood_tags "A sunny beach with bright colors").all
       (fun t => ["bright", "cheerful", "warm", "happy", "vibrant", "energetic",
                  "relaxing", "tropical", "carefree"].contains t)) = true ∧
    (extract_mood_tags "A sunny beach with bright colors").length ≤ 6 ∧
    (extract_mood_tags "A sunny beach with bright colors").Nodup := by decide

/-- C8: the caption A person sitting quietly matches no lexicon keyword and
    contains the posture word sitting, so extract_mood_tags returns exactly
    the posture fallback pair calm, relaxed. -/
theorem c8_person_sitting :
    extract_mood_tags "A person sitting quietly" = ["calm", "relaxed"] ∧
    mood_mappings.all
      (fun p => !(strContains p.1 (lowerStr "A person sitting quietly"))) = true := by
  decide

/-- C10: a caption containing beautiful always takes the lexicon branch,
    since beautiful is itself a lexicon keyword; and the positive fallback
    pair pleasant, positive is returned only when no lexicon keyword occurs
    in the lowered caption and one of nice, good, lovely does. -/
theorem c10_positive_fallback_source (c : String) :
    (strContains "beautiful" (lowerStr c) = true → keywordFold (lowerStr c) ≠ []) ∧
    (extract_mood_tags c = ["pleasant", "positive"] →
      mood_mappings.all (fun p => !(strContains p.1 (lowerStr c))) = true ∧
      (strContains "nice" (lowerStr c) || strContains "good" (lowerStr c) ||
       strContains "lovely" (lowerStr c)) = true) := by
  have hbmem : ("beautiful", ["elegant", "lovely", "aesthetic"]) ∈ mood_mappings := by decide
  constructor
  · intro hb
    exact keywordFold_ne_nil_of_match hbmem hb
  · intro hx
    have hnil : keywordFold (lowerStr c) = [] := by
      by_contra hne
      have hex := extract_of_keywordFold_ne_nil hne
      rw [hx] at hex
      have hp : "pleasant" ∈ (keywordFold (lowerStr c)).take 6 := by
        rw [← hex]
        decide
      have hp2 : "pleasant" ∈ keywordFold (lowerStr c) :=
        (List.take_sublist 6 _).subset hp
      rcases mem_foldl_keywordStep (lowerStr c) mood_mappings [] hp2 with h0 | ⟨q, hq, hq2⟩
      · cases h0
      · exact pleasant_not_in_moods q hq hq2
    have hall : ∀ p ∈ mood_mappings, strContains p.1 (lowerStr c) = false := by
      rintro ⟨k, ms⟩ hp
      by_contra hk
      rw [Bool.not_eq_false] at hk
      exact keywordFold_ne_nil_of_match hp hk hnil
    have hbfalse : strContains "beautiful" (lowerStr c) = false := hall _ hbmem
    constructor
    · rw [List.all_eq_true]
      intro p hp
      rw [hall p hp]
      rfl
    · have he := extract_of_keywordFold_nil hnil
      rw [hx] at he
      have hpos : positiveHit (lowerStr c) = true := by
        by_contra hneg
        rw [Bool.not_eq_true] at hneg
        rw [if_neg (by simp [hneg])] at he
        split at he
        · exact absurd he (by decide)
        · exact absurd he (by decide)
      unfold positiveHit at hpos
      simp only [List.any_cons, List.any_nil, Bool.or_false] at hpos
      rw [hbfalse] at hpos
      have hpos2 : strContains "nice" (lowerStr c) = true ∨
          strContains "good" (lowerStr c) = true ∨
          strContains "lovely" (lowerStr c) = true := by simpa using hpos
      simp only [Bool.or_eq_true]
      tauto

/-- C10 witness: a caption with beautiful takes the lexicon branch, and a
    caption whose output is the positive fallback pair contains nice and no
    lexicon keyword. -/
theorem c10_positive_fallback_source_witness :
    keywordFold (lowerStr "a beautiful day") ≠ [] ∧
    (mood_mappings.all (fun p => !(strContains p.1 (lowerStr "a nice view"))) = true ∧
     (strContains "nice" (lowerStr "a nice view") ||
      strContains "good" (lowerStr "a nice view") ||
      strContains "lovely" (lowerStr "a nice view")) = true) :=
  ⟨(c10_positive_fallback_source "a beautiful day").1 (by decide),
   (c10_positive_fallback_source "a nice view").2 (by decide)⟩

/-! ### Helper lemmas about the job processor -/

theorem append_right_ne_empty (a b : String) (ha : a.length ≠ 0) : a ++ b ≠ "" := by
  intro h0
  have hlen := congrArg String.length h0
  rw [String.length_append] at hlen
  have h00 : ("" : String).length = 0 := rfl
  rw [h00] at hlen
  omega

theorem getItem_error_msg (j : Json) (k : String) (e : Exc)
    (h : getItem j k = .error e) : e.msg ≠ "" := by
  have hkey : ("KeyError: " ++ k) ≠ "" :=
    append_right_ne_empty _ k (by decide)
  have htype : ("TypeError: value is not subscriptable by string key " ++ k) ≠ "" :=
    append_right_ne_empty _ k (by decide)
  unfold getItem at h
  split at h
  next kvs =>
    split at h
    next v heq => exact Except.noConfusion h
    next heq =>
      injection h with h2
      rw [← h2]
      exact hkey
  next =>
    injection h with h2
    rw [← h2]
    exact htype

theorem asB64Input_error_msg (d : Json) (e : Exc)
    (h : asB64Input d = .error e) : e.msg ≠ "" := by
  unfold asB64Input at h
  split at h
  · exact Except.noConfusion h
  · injection h with h2
    rw [← h2]
    decide

theorem processTry_ok_success (env : Env) (j : Json) (r : ResultRec)
    (h : processTry env j = Except.ok r) : r.success = true := by
  unfold processTry at h
  split at h
  · exact Except.noConfusion h
  split at h
  · exact Except.noConfusion h
  split at h
  · exact Except.noConfusion h
  split at h
  · exact Except.noConfusion h
  split at h
  · exact Except.noConfusion h
  split at h
  · exact Except.noConfusion h
  split at h
  all_goals (dsimp only at h; split at h)
  · exact Except.noConfusion h
  · injection h with h2
    rw [← h2]
  · exact Except.noConfusion h
  · injection h with h2
    rw [← h2]

theorem processTry_error_msg (env : Env) (henv : EnvNonemptyMsgs env)
    (j : Json) (e : Exc) (h : processTry env j = Except.error e) : e.msg ≠ "" := by
  obtain ⟨hb, hio, hg⟩ := henv
  unfold processTry at h
  split at h
  next e1 heq =>
    injection h with h2
    exact h2 ▸ getItem_error_msg j "requestId" e1 heq
  next rid heq =>
    split at h
    next e1 heq2 =>
      injection h with h2
      exact h2 ▸ getItem_error_msg j "fileName" e1 heq2
    next fn heq2 =>
      split at h
      next e1 heq3 =>
        injection h with h2
        exact h2 ▸ getItem_error_msg j "imageData" e1 heq3
      next idata heq3 =>
        split at h
        next e1 heq4 =>
          injection h with h2
          exact h2 ▸ asB64Input_error_msg idata e1 heq4
        next istr heq4 =>
          split at h
          next e1 heq5 =>
            injection h with h2
            exact h2 ▸ hb istr e1 heq5
          next ibytes heq5 =>
            split at h
            next e1 heq6 =>
              injection h with h2
              exact h2 ▸ hio ibytes e1 heq6
            next pil0 heq6 =>
              split at h
              · dsimp only at h
                split at h
                next e1 heq7 =>
                  injection h with h2
                  exact h2 ▸ hg _ e1 heq7
                next cap heq7 =>
                  exact Except.noConfusion h
              · dsimp only at h
                split at h
                next e1 heq7 =>
                  injection h with h2
                  exact h2 ▸ hg _ e1 heq7
                next cap heq7 =>
                  exact Except.noConfusion h

/-- On a dict job, process_image always returns a result and never raises:
    the try block either succeeds or the except handler builds the failure
    record through job_data.get, which succeeds on a dict. -/
theorem process_image_obj_ret (env : Env) (kvs : List (String × Json)) :
    ∃ r, process_image env (.obj kvs) = .ret r := by
  unfold process_image
  cases processTry env (.obj kvs)
  · exact ⟨_, rfl⟩
  · exact ⟨_, rfl⟩

/-! ### Claim theorems about the job processor and the worker loop -/

/-- C1 counterexample: on a non-dict job value (a JSON string here), the
    except handler of process_image evaluates job_data.get, which itself
    raises AttributeError, so the call propagates an exception instead of
    returning a Result. -/
theorem c1_counterexample :
    process_image envOK (.str "oops") = .raised ⟨"AttributeError: get"⟩ := rfl

/-- C1 (amended): restricted to dict job values, process_image always
    returns normally, and any failure result carries a non-empty error
    message (granted collaborators whose exceptions carry one) and the
    requestId of the job when present, else the string unknown. On non-dict
    values the except handler itself raises AttributeError via job_data.get,
    so the original unrestricted claim fails. -/
theorem c1_process_image_dict_no_raise (env : Env) (kvs : List (String × Json))
    (henv : EnvNonemptyMsgs env) :
    ∃ r, process_image env (.obj kvs) = .ret r ∧
      (r.success = false →
        ∃ m, r.error = some m ∧ m ≠ "" ∧
          r.requestId = (lookupField kvs "requestId").getD (.str "unknown")) := by
  cases h : processTry env (.obj kvs) with
  | ok r =>
    refine ⟨r, ?_, ?_⟩
    · unfold process_image
      rw [h]
    · intro hfail
      rw [processTry_ok_success env _ r h] at hfail
      cases hfail
  | error e =>
    refine ⟨{ requestId := (lookupField kvs "requestId").getD (.str "unknown"),
              success := false, tags := [], caption := none,
              error := some e.msg, worker := env.workerId,
              processedAt := env.now }, ?_, ?_⟩
    · simp [process_image, h]
    · intro _
      exact ⟨e.msg, rfl, processTry_error_msg env henv _ e h, rfl⟩

/-- C1 witness at a concrete environment and a concrete one-field job. -/
theorem c1_process_image_dict_no_raise_witness :
    ∃ r, process_image envOK (.obj [("requestId", .str "r1")]) = .ret r ∧
      (r.success = false →
        ∃ m, r.error = some m ∧ m ≠ "" ∧
          r.requestId
            = (lookupField [("requestId", .str "r1")] "requestId").getD (.str "unknown")) :=
  c1_process_image_dict_no_raise envOK [("requestId", .str "r1")]
    ⟨fun _ _ h => Except.noConfusion h, fun _ _ h => Except.noConfusion h,
     fun _ _ h => Except.noConfusion h⟩

/-- C2 counterexample: the payload parsing to the empty JSON object parses
    successfully, yet its iteration publishes nothing: the received-job log
    line evaluates job[requestId], which raises KeyError and is swallowed by
    the inner handler before process_image or publish can run. -/
theorem c2_counterexample :
    (queue_worker_iter envOK (.popped (.ok (.obj [])))).published.length = 0 := rfl

/-- C2 (amended): in one iteration of the worker loop, a payload that fails
    to parse as JSON publishes nothing; a payload parsing to a dict with a
    requestId key publishes exactly one result, whether processing succeeded
    or failed; a payload parsing to anything else (a non-dict, or a dict
    without requestId) also publishes nothing, because the received-job log
    line raises before processing. -/
theorem c2_publish_counts (env : Env) :
    (∀ e, (queue_worker_iter env (.popped (.error e))).published.length = 0) ∧
    (∀ job v, getItem job "requestId" = .ok v →
        (queue_worker_iter env (.popped (.ok job))).published.length = 1) ∧
    (∀ job e, getItem job "requestId" = .error e →
        (queue_worker_iter env (.popped (.ok job))).published.length = 0) := by
  refine ⟨fun e => rfl, ?_, ?_⟩
  · intro job v hv
    have hobj : ∃ kvs, job = Json.obj kvs := by
      cases job <;> simp [getItem] at hv
      exact ⟨_, rfl⟩
    obtain ⟨kvs, rfl⟩ := hobj
    obtain ⟨r, hr⟩ := process_image_obj_ret env kvs
    simp [queue_worker_iter, hv, hr]
  · intro job e he
    simp [queue_worker_iter, he]

/-- C2 witness: a malformed payload, a well-formed job and a requestId-free
    object, all at a concrete environment. -/
theorem c2_publish_counts_witness :
    (queue_worker_iter envOK (.popped (.error ⟨"Expecting value"⟩))).published.length = 0 ∧
    (queue_worker_iter envOK
        (.popped (.ok (.obj [("requestId", .str "r1")])))).published.length = 1 ∧
    (queue_worker_iter envOK (.popped (.ok (.num 7)))).published.length = 0 :=
  ⟨(c2_publish_counts envOK).1 ⟨"Expecting value"⟩,
   (c2_publish_counts envOK).2.1 (.obj [("requestId", .str "r1")]) (.str "r1") rfl,
   (c2_publish_counts envOK).2.2 (.num 7) ⟨"TypeError: value is not subscriptable by string key requestId"⟩ rfl⟩

/-- C5: classification of every iteration of the worker loop: only the
    cancellation signal makes the loop exit (cleanly, publishing nothing); a
    pop error is followed by the fixed 5 time-unit backoff and another
    iteration; a timeout or a popped payload never exits the loop. -/
theorem c5_loop_exit_only_on_cancel (env : Env) :
    (queue_worker_iter env .cancelled).exits = true ∧
    (queue_worker_iter env .cancelled).published = [] ∧
    (∀ e, (queue_worker_iter env (.popErr e)).exits = false ∧
          (queue_worker_iter env (.popErr e)).backoff = 5) ∧
    (queue_worker_iter env .timeout).exits = false ∧
    (∀ p, (queue_worker_iter env (.popped p)).exits = false) := by
  refine ⟨rfl, rfl, fun e => ⟨rfl, rfl⟩, rfl, ?_⟩
  intro p
  rcases p with e | job
  · rfl
  · rcases h1 : getItem job "requestId" with e1 | v1
    · simp [queue_worker_iter, h1]
    · rcases h2 : process_image env job with r | e2
      · simp [queue_worker_iter, h1, h2]
      · simp [queue_worker_iter, h1, h2]

/-- C9: startup_event creates the worker task exactly when both the model
    load and the redis ping succeed; any startup failure returns before the
    worker loop is started. -/
theorem c9_worker_started_iff_startup_ok (loadModelOk : Bool) (ping : Except Exc Unit) :
    (startup_event loadModelOk ping).workerStarted
      = (loadModelOk && ping.toOption.isSome) := by
  cases loadModelOk <;> cases ping <;> rfl

end MoodTagger
